import Mathlib

/-!
Shallow embedding of the gocassa CQL statement builder, relation evaluator,
modifier rendering and row scanner (src/statement.go, src/relation.go,
src/unnamed/part_000, part_001, part_002), together with theorems settling
the specification claims about them.

Modelling conventions:
* Go scalar `interface{}` cell values become the inductive `GoValue`.  A Go
  byte slice is modelled by the string of its bytes (Go strings are byte
  sequences; the embedded code inspects only length and byte content of
  slices, so nil and empty slices coincide in the model).  `GoValue.int`
  is a Go `int`, `GoValue.i64` a Go `int64`; they are distinct dynamic
  types under Go interface equality.
* `time.Time` is modelled by its instant as nanoseconds since the Unix
  epoch (`GoValue.time`); `time.Time.IsZero` holds exactly at the instant
  `goZeroTimeNs` (January 1, year 1 UTC) and `time.Time.Equal` is equality
  of instants.  `time.Duration` is its nanosecond count.
* A `Modifier{op, args}` value is a tagged sum with the per-op arity the
  public constructors guarantee; a field-map entry is a scalar or a
  modifier (`FieldVal`); an emitted bind value is a scalar or a
  `[]interface{}` of scalars (`BindValue`).
* Go maps `map[string]interface{}` become association lists with distinct
  keys; `sortedKeys` canonicalises the (unordered) iteration order exactly
  as the Go code does.
* Rendering code paths that index `Terms()[0]` and would panic in Go on an
  empty term list return `Option`; `none` marks the panic.
-/

/-- Comparator represents a comparison operand (src/relation.go).  The five
tuple comparators are referenced by `generateRelationCQL` in
src/statement.go; the Go type is an `int`, so the panic branch of
`generateRelationCQL` for integers outside the enumeration has no
counterpart in this closed inductive. -/
inductive Comparator where
  | cmpEquality
  | cmpIn
  | cmpGreaterThan
  | cmpGreaterThanOrEquals
  | cmpLesserThan
  | cmpLesserThanOrEquals
  | cmpTupleEquality
  | cmpTupleGreaterThan
  | cmpTupleGreaterThanOrEquals
  | cmpTupleLesserThan
  | cmpTupleLesserThanOrEquals
  deriving DecidableEq, Repr

/-- A dynamic Go scalar value as stored in cells, relation terms and field
maps.  `bytes` carries the byte string of a `[]byte`; `time` the instant in
nanoseconds since epoch; `dur` a `time.Duration` in nanoseconds; `int` a Go
`int` and `i64` a Go `int64` (distinct dynamic types). -/
inductive GoValue where
  | nil
  | str (s : String)
  | bytes (bs : String)
  | time (ns : Int)
  | dur (ns : Int)
  | int (n : Int)
  | i64 (n : Int)
  | bool (b : Bool)
  deriving DecidableEq, Repr

/-- A `Modifier` value (src/unnamed/part_002): tagged sum `{op, args}` with
the argument arity fixed per op, exactly as the public constructors
`ListPrepend`, `ListAppend`, `ListSetAtIndex`, `ListRemove`,
`MapSetFields`, `MapSetField` and `CounterIncrement` build it. -/
inductive Modifier where
  | listPrepend (v : GoValue)
  | listAppend (v : GoValue)
  | listSetAtIndex (i : Int) (v : GoValue)
  | listRemove (v : GoValue)
  | mapSetFields (m : List (String × GoValue))
  | mapSetField (k v : GoValue)
  | counterIncrement (n : Int)
  deriving DecidableEq, Repr

/-- A field-map entry: a plain scalar value or a `Modifier`
(the `value.(Modifier)` type switch in `generateUpdateSetCQL`). -/
inductive FieldVal where
  | val (v : GoValue)
  | mod (m : Modifier)
  deriving DecidableEq, Repr

/-- An emitted bind value: a scalar, or a `[]interface{}` of scalars (the
whole term list of an `IN` relation, or the one-element list wrapping of
the list modifiers). -/
inductive BindValue where
  | val (v : GoValue)
  | list (vs : List GoValue)
  | modv (m : Modifier)
  deriving DecidableEq, Repr

/-- ClusteringSentinel represents a placeholder value to be used for cases
where a value needs to be present (src/statement.go). -/
def ClusteringSentinel : String := "<gocassa.ClusteringSentinel>"

/-- The instant of `time.Time{}` (January 1, year 1 UTC) in nanoseconds
since the Unix epoch; `time.Time.IsZero` holds exactly there. -/
def goZeroTimeNs : Int := -62135596800 * 1000000000

/-- ClusteringSentinelTimestamp is `time.Unix(-6847804725, 0)`
(src/statement.go), as nanoseconds since epoch. -/
def ClusteringSentinelTimestampNs : Int := -6847804725 * 1000000000

/-- ClusteringFieldOrSentinel will check if we should substitute in our
sentinel value for empty clustering fields (src/statement.go). -/
def ClusteringFieldOrSentinel (term : GoValue) : GoValue :=
  match term with
  | .str v => if v = "" then .str ClusteringSentinel else .str v
  | .bytes v => if v = "" then .bytes ClusteringSentinel else .bytes v
  | .time v => if v = goZeroTimeNs then .time ClusteringSentinelTimestampNs else .time v
  | v => v

/-- IsClusteringSentinelValue returns whether the value passed in is the
clustering sentinel value and what the non-sentinel value is
(src/statement.go).  The struct branch applies to the one struct kind in
the model, `time`; the string and byte-slice branches reset to the zero
value of the kind. -/
def IsClusteringSentinelValue (term : GoValue) : Bool × GoValue :=
  match term with
  | .str v => if v = ClusteringSentinel then (true, .str "") else (false, .str v)
  | .bytes v => if v = ClusteringSentinel then (true, .bytes "") else (false, .bytes v)
  | .time v =>
      if v = ClusteringSentinelTimestampNs then (true, .time goZeroTimeNs) else (false, .time v)
  | v => (false, v)

/-- Keys of a table.  Modelled from the spec: the `Keys` struct declaration
(`{ partitionKeys[], clusteringColumns[] }`, both ordered lists of column
names) is not among the provided sources, though every statement in
src/statement.go carries one. -/
structure Keys where
  partitionKeys : List String
  clusteringColumns : List String
  deriving DecidableEq, Repr

/-- `strings.ToLower` on one character, for the ASCII range the embedded
identifiers live in. -/
def goCharToLower (c : Char) : Char :=
  if 65 ≤ c.toNat ∧ c.toNat ≤ 90 then Char.ofNat (c.toNat + 32) else c

/-- `strings.ToLower` (kept kernel-reducible, unlike `String.toLower`). -/
def goToLower (s : String) : String := ⟨s.data.map goCharToLower⟩

/-- isClusteringKeyField determines whether the field makes up the
clustering key of the statement (src/statement.go). -/
def isClusteringKeyField (field : String) (keys : Keys) : Bool :=
  keys.clusteringColumns.any (fun key => goToLower key = goToLower field)

/-- Clustering order direction.  Modelled from the spec: the `Direction`
type with `String()` rendering `ASC` / `DESC` is outside the provided
sources. -/
inductive Direction where
  | asc
  | desc
  deriving DecidableEq, Repr

/-- String rendering of a clustering direction. -/
def Direction.render : Direction → String
  | .asc => "ASC"
  | .desc => "DESC"

/-- ClusteringOrderColumn as used by `generateOrderByCQL`. -/
structure ClusteringOrderColumn where
  column : String
  direction : Direction
  deriving DecidableEq, Repr

/-- `strings.Join(parts, sep)`. -/
def goJoin (sep : String) : List String → String
  | [] => ""
  | [x] => x
  | x :: xs => x ++ sep ++ goJoin sep xs

/-- A Go `map[string]interface{}` of fields, as an association list with
distinct keys. -/
abbrev FieldMap := List (String × FieldVal)

/-- Go's `<=` on strings, lexicographic byte-wise, on the character
lists. -/
def goListLe : List Char → List Char → Bool
  | [], _ => true
  | _ :: _, [] => false
  | a :: as, b :: bs =>
      if a.toNat < b.toNat then true
      else if b.toNat < a.toNat then false
      else goListLe as bs

/-- Go's `<=` on strings (the order `sort.Strings` sorts by). -/
def goStrLe (a b : String) : Bool := goListLe a.data b.data

/-- Insert a string into an ascending list, keeping it ascending. -/
def insertSorted (x : String) : List String → List String
  | [] => [x]
  | y :: ys => if goStrLe x y then x :: y :: ys else y :: insertSorted x ys

/-- `sort.Strings`: the list sorted ascending in Go's string order (an
insertion sort; any correct sort of a duplicate-free key list yields the
same result). -/
def goSortStrings (l : List String) : List String := l.foldr insertSorted []

/-- The keys of a field map sorted ascending (`sortedKeys`,
src/unnamed/part_001: `sort.Strings` on the map's keys). -/
def sortedKeys (fm : FieldMap) : List String :=
  goSortStrings (fm.map Prod.fst)

/-- Go map indexing `fm[fieldName]`: the entry's value, or the nil
interface when the key is absent. -/
def fmGet (fm : FieldMap) (k : String) : FieldVal :=
  ((fm.find? (fun p => p.1 = k)).map Prod.snd).getD (.val .nil)

/-- `ClusteringFieldOrSentinel` applied to a field-map entry: the type
switch substitutes scalars and passes a `Modifier` through its default
branch unchanged. -/
def FieldVal.orSentinel : FieldVal → FieldVal
  | .val v => .val (ClusteringFieldOrSentinel v)
  | .mod m => .mod m

/-- A field-map entry as it appears in an emitted bind-value slice. -/
def FieldVal.toBind : FieldVal → BindValue
  | .val v => .val v
  | .mod m => .modv m

/-- Negation of a Go `int` (64-bit, two's complement): it wraps, so
`-math.MinInt64` is `math.MinInt64` itself, and every other value negates
exactly. -/
def goIntNeg (n : Int) : Int := (-n + 2 ^ 63) % 2 ^ 64 - 2 ^ 63

/-- Modifier.cql generates the SET fragment and bind values for a modifier
on the named column (src/unnamed/part_002).  For `mapSetFields` the Go code
walks the map in unspecified order; the association-list order stands in
for it.  The counter branch negates with Go's wrapping `int` negation
(`goIntNeg`). -/
def Modifier.cql (m : Modifier) (name : String) : String × List BindValue :=
  match m with
  | .listPrepend v => (name ++ " = ? + " ++ name, [.list [v]])
  | .listAppend v => (name ++ " = " ++ name ++ " + ?", [.list [v]])
  | .listSetAtIndex i v => (name ++ "[?] = ?", [.val (.int i), .val v])
  | .listRemove v => (name ++ " = " ++ name ++ " - ?", [.list [v]])
  | .mapSetFields fields =>
      (goJoin ", " (fields.map (fun _ => name ++ "[?] = ?")),
       (fields.map (fun kv => [BindValue.val (.str kv.1), BindValue.val kv.2])).flatten)
  | .mapSetField k v => (name ++ "[?] = ?", [.val k, .val v])
  | .counterIncrement n =>
      if n > 0 then (name ++ " = " ++ name ++ " + ?", [.val (.int n)])
      else (name ++ " = " ++ name ++ " - ?", [.val (.int (goIntNeg n))])

/-- CounterIncrement increments the value of the counter with the given
value; negative value results in decrementing (src/unnamed/part_002). -/
def CounterIncrement (value : Int) : Modifier := .counterIncrement value

/-- ListPrepend prepends a value to the front of the list. -/
def ListPrepend (value : GoValue) : Modifier := .listPrepend value

/-- ListAppend appends a value to the end of the list. -/
def ListAppend (value : GoValue) : Modifier := .listAppend value

/-- ListRemove removes all elements from a list having a particular
value. -/
def ListRemove (value : GoValue) : Modifier := .listRemove value

/-- MapSetField updates the map with the given key and value. -/
def MapSetField (k v : GoValue) : Modifier := .mapSetField k v

/-- Relation describes the comparison of a field against a list of terms
(src/relation.go). -/
structure Relation where
  cmp : Comparator
  field : String
  terms : List GoValue
  deriving DecidableEq, Repr

/-- `toI` wraps a term in a one-element term list (src/relation.go). -/
def toI (v : GoValue) : List GoValue := [v]

/-- The `Eq` relation constructor (src/relation.go); namespaced because
`Eq`, `GT`, `LT` and friends are taken by the Lean prelude. -/
def Rel.Eq (field : String) (term : GoValue) : Relation :=
  ⟨.cmpEquality, field, toI term⟩

/-- The `In` relation constructor (src/relation.go): the whole variadic
argument list becomes the term list. -/
def Rel.In (field : String) (terms : List GoValue) : Relation :=
  ⟨.cmpIn, field, terms⟩

/-- The `GT` relation constructor (src/relation.go). -/
def Rel.GT (field : String) (term : GoValue) : Relation :=
  ⟨.cmpGreaterThan, field, toI term⟩

/-- The `GTE` relation constructor (src/relation.go). -/
def Rel.GTE (field : String) (term : GoValue) : Relation :=
  ⟨.cmpGreaterThanOrEquals, field, toI term⟩

/-- The `LT` relation constructor (src/relation.go). -/
def Rel.LT (field : String) (term : GoValue) : Relation :=
  ⟨.cmpLesserThan, field, toI term⟩

/-- The `LTE` relation constructor (src/relation.go). -/
def Rel.LTE (field : String) (term : GoValue) : Relation :=
  ⟨.cmpLesserThanOrEquals, field, toI term⟩

/-- convertToPrimitive coerces a cell or term before comparison
(src/relation.go): a `time.Time` becomes `UnixNano()` (an `int64`), a
`time.Duration` becomes `Nanoseconds()` (an `int64`), a byte slice becomes
the string of its bytes, a string-kinded value its string representation,
and anything else is passed through unchanged. -/
def convertToPrimitive (i : GoValue) : GoValue :=
  match i with
  | .time ns => .i64 ns
  | .dur ns => .i64 ns
  | .bytes bs => .str bs
  | v => v

/-- anyEquals: whether the coerced value equals the coerced form of some
term (src/relation.go).  Go interface equality on the coerced primitives is
equality of `GoValue`, which carries the dynamic type. -/
def anyEquals (value : GoValue) (terms : List GoValue) : Bool :=
  terms.any (fun term => convertToPrimitive value == convertToPrimitive term)

/-- Modelled from the spec: `builtinGreaterThan` is not among the provided
sources (src/relation.go only calls it).  Per the spec it is a total order
on primitives of one kind, and mismatched kinds produce an error (`none`),
which `accept` turns into `false`. -/
def builtinGreaterThan : GoValue → GoValue → Option Bool
  | .int a, .int b => some (a > b)
  | .i64 a, .i64 b => some (a > b)
  | .str a, .str b => some (a > b)
  | _, _ => none

/-- Modelled from the spec: `builtinLessThan` is not among the provided
sources; see `builtinGreaterThan`. -/
def builtinLessThan : GoValue → GoValue → Option Bool
  | .int a, .int b => some (a < b)
  | .i64 a, .i64 b => some (a < b)
  | .str a, .str b => some (a < b)
  | _, _ => none

/-- Relation.accept returns whether a stored cell satisfies the relation
(src/relation.go).  `terms.headD .nil` stands for `Terms()[0]`, which
panics in Go on an empty term list; every relation built by the public
constructors reaching this line has a term. -/
def Relation.accept (r : Relation) (i : GoValue) : Bool :=
  if r.cmp = .cmpEquality ∨ r.cmp = .cmpIn then
    anyEquals i r.terms
  else
    let a := convertToPrimitive i
    let b := convertToPrimitive (r.terms.headD .nil)
    match r.cmp with
    | .cmpGreaterThan => (builtinGreaterThan a b).getD false
    | .cmpGreaterThanOrEquals =>
        match builtinGreaterThan a b with
        | none => false
        | some res => res || a == b
    | .cmpLesserThanOrEquals =>
        match builtinLessThan a b with
        | none => false
        | some res => res || a == b
    | .cmpLesserThan => (builtinLessThan a b).getD false
    | _ => false

/-- generateOrderByCQL generates the CQL for the ORDER BY clause
(src/statement.go). -/
def generateOrderByCQL (order : List ClusteringOrderColumn) : String :=
  goJoin ", " (order.map (fun oc => oc.column ++ " " ++ oc.direction.render))

/-- generateTupleCQLBind builds the `(?,…,?)` binder group for a tuple
relation (src/statement.go): one `?,` per term beyond the first, then
`?)`. -/
def generateTupleCQLBind (rel : Relation) : String :=
  "(" ++ String.join (List.replicate (rel.terms.length - 1) "?,") ++ "?)"

/-- generateRelationCQL renders one relation as a WHERE fragment with its
bind values (src/statement.go).  `none` marks the Go panic on `Terms()[0]`
of an empty term list. -/
def generateRelationCQL (rel : Relation) (keys : Keys)
    (clusteringSentinelsEnabled : Bool) : Option (String × List BindValue) :=
  let field := goToLower rel.field
  match rel.cmp with
  | .cmpEquality =>
      rel.terms.head?.map fun t =>
        if isClusteringKeyField rel.field keys && clusteringSentinelsEnabled then
          (field ++ " = ?", [.val (ClusteringFieldOrSentinel t)])
        else
          (field ++ " = ?", [.val t])
  | .cmpIn => some (field ++ " IN ?", [.list rel.terms])
  | .cmpGreaterThan => rel.terms.head?.map fun t => (field ++ " > ?", [.val t])
  | .cmpGreaterThanOrEquals => rel.terms.head?.map fun t => (field ++ " >= ?", [.val t])
  | .cmpLesserThan => rel.terms.head?.map fun t => (field ++ " < ?", [.val t])
  | .cmpLesserThanOrEquals => rel.terms.head?.map fun t => (field ++ " <= ?", [.val t])
  | .cmpTupleEquality =>
      some (field ++ " = " ++ generateTupleCQLBind rel, rel.terms.map .val)
  | .cmpTupleGreaterThan =>
      some (field ++ " > " ++ generateTupleCQLBind rel, rel.terms.map .val)
  | .cmpTupleGreaterThanOrEquals =>
      some (field ++ " >= " ++ generateTupleCQLBind rel, rel.terms.map .val)
  | .cmpTupleLesserThan =>
      some (field ++ " < " ++ generateTupleCQLBind rel, rel.terms.map .val)
  | .cmpTupleLesserThanOrEquals =>
      some (field ++ " <= " ++ generateTupleCQLBind rel, rel.terms.map .val)

/-- The clause/value accumulation loop of `generateWhereCQL`
(src/statement.go), kept as a list of clauses before joining. -/
def generateWhereParts (rs : List Relation) (keys : Keys)
    (clusteringSentinelsEnabled : Bool) : Option (List String × List BindValue) :=
  match rs with
  | [] => some ([], [])
  | r :: rest => do
      let (clause, bindValue) ← generateRelationCQL r keys clusteringSentinelsEnabled
      let (clauses, values) ← generateWhereParts rest keys clusteringSentinelsEnabled
      some (clause :: clauses, bindValue ++ values)

/-- generateWhereCQL takes a list of relations and generates the CQL for a
WHERE clause with its bind values (src/statement.go). -/
def generateWhereCQL (rs : List Relation) (keys : Keys)
    (clusteringSentinelsEnabled : Bool) : Option (String × List BindValue) :=
  (generateWhereParts rs keys clusteringSentinelsEnabled).map
    (fun p => (goJoin " AND " p.1, p.2))

/-- The SET fragment and bind values one field contributes — the loop body
of `generateUpdateSetCQL` (src/statement.go): a `Modifier` value renders
through `Modifier.cql`, any other value as `name = ?` with the raw value as
the one bind. -/
def updateSetClauseOf (fm : FieldMap) (fieldName : String) : String × List BindValue :=
  match fmGet fm fieldName with
  | .mod m => m.cql fieldName
  | .val v => (fieldName ++ " = ?", [BindValue.val v])

/-- generateUpdateSetCQL takes in a field map and generates the comma
separated SET syntax with its bind values (src/statement.go).  Note that it
receives neither the table keys nor the sentinel flag. -/
def generateUpdateSetCQL (fm : FieldMap) : String × List BindValue :=
  (goJoin ", " ((sortedKeys fm).map (fun f => (updateSetClauseOf fm f).1)),
   ((sortedKeys fm).map (fun f => (updateSetClauseOf fm f).2)).flatten)

/-- `int(d.Seconds())` for a non-negative duration in nanoseconds:
truncation toward zero (exact for the magnitudes a TTL can hold). -/
def goSeconds (ns : Int) : Int := ns / 1000000000

/-- SelectStatement represents a read (SELECT) query (src/statement.go).
`whereRels` is the Go field `where` (a Lean keyword); `limit` and `ttl`
durations are Go `int` / `time.Duration` modelled as `Int`. -/
structure SelectStatement where
  keyspace : String
  table : String
  fields : List String
  whereRels : List Relation
  order : List ClusteringOrderColumn
  limit : Int
  allowFiltering : Bool
  keys : Keys
  clusteringSentinelsEnabled : Bool
  deriving DecidableEq, Repr

/-- NewSelectStatement validates its arguments and crafts a new
SelectStatement (src/statement.go). -/
def NewSelectStatement (keyspace table : String) (fields : List String)
    (rel : List Relation) (keys : Keys) : Except String SelectStatement :=
  if keyspace = "" ∨ table = "" then
    .error "keyspace and table can't be empty"
  else if fields.length < 1 then
    .error "fields must be a list of string fields to select"
  else if keys.partitionKeys.length = 0 then
    .error "partition key should be supplied"
  else
    .ok { keyspace := keyspace, table := table, fields := fields, whereRels := rel,
          order := [], limit := 0, allowFiltering := false, keys := keys,
          clusteringSentinelsEnabled := false }

/-- `Limit()`: zero when the stored limit is below one (src/statement.go). -/
def SelectStatement.Limit (s : SelectStatement) : Int :=
  if s.limit < 1 then 0 else s.limit

/-- `WithLimit`: zero or negative removes the limit (src/statement.go). -/
def SelectStatement.WithLimit (s : SelectStatement) (limit : Int) : SelectStatement :=
  { s with limit := if limit < 1 then 0 else limit }

/-- `WithRelations` (src/statement.go). -/
def SelectStatement.WithRelations (s : SelectStatement) (rel : List Relation) : SelectStatement :=
  { s with whereRels := rel }

/-- `WithOrderBy` (src/statement.go). -/
def SelectStatement.WithOrderBy (s : SelectStatement)
    (order : List ClusteringOrderColumn) : SelectStatement :=
  { s with order := order }

/-- `WithAllowFiltering` (src/statement.go). -/
def SelectStatement.WithAllowFiltering (s : SelectStatement) (enabled : Bool) : SelectStatement :=
  { s with allowFiltering := enabled }

/-- `WithClusteringSentinel` (src/statement.go). -/
def SelectStatement.WithClusteringSentinel (s : SelectStatement) (enabled : Bool) : SelectStatement :=
  { s with clusteringSentinelsEnabled := enabled }

/-- SelectStatement.QueryAndValues returns the CQL query and any bind
values (src/statement.go); `none` marks the Go panic on a malformed
relation. -/
def SelectStatement.QueryAndValues (s : SelectStatement) : Option (String × List BindValue) :=
  (generateWhereCQL s.whereRels s.keys s.clusteringSentinelsEnabled).map
    fun wcv =>
      let queryA := ["SELECT", goJoin ", " s.fields, "FROM " ++ s.keyspace ++ "." ++ s.table]
      let queryB := if wcv.1 ≠ "" then queryA ++ ["WHERE", wcv.1] else queryA
      let queryC :=
        if generateOrderByCQL s.order ≠ "" then queryB ++ ["ORDER BY", generateOrderByCQL s.order]
        else queryB
      let queryD := if s.Limit > 0 then queryC ++ ["LIMIT ?"] else queryC
      let queryE := if s.allowFiltering then queryD ++ ["ALLOW FILTERING"] else queryD
      let valuesB := if wcv.1 ≠ "" then wcv.2 else []
      let valuesD :=
        if s.Limit > 0 then valuesB ++ [BindValue.val (.int s.limit)] else valuesB
      (goJoin " " queryE, valuesD)

/-- InsertStatement represents an INSERT query (src/statement.go); `ttl` is
a `time.Duration` in nanoseconds. -/
structure InsertStatement where
  keyspace : String
  table : String
  fieldMap : FieldMap
  ttl : Int
  keys : Keys
  allowClusterSentinel : Bool
  deriving DecidableEq, Repr

/-- NewInsertStatement validates its arguments and crafts a new
InsertStatement (src/statement.go). -/
def NewInsertStatement (keyspace table : String) (fieldMap : FieldMap)
    (keys : Keys) : Except String InsertStatement :=
  if keyspace = "" ∨ table = "" then
    .error "keyspace and table can't be empty"
  else if fieldMap.length < 1 then
    .error "fieldMap must be a map fields to insert"
  else if keys.partitionKeys.length = 0 then
    .error "partition key should be supplied"
  else
    .ok { keyspace := keyspace, table := table, fieldMap := fieldMap, ttl := 0,
          keys := keys, allowClusterSentinel := false }

/-- `TTL()`: a duration below one nanosecond reads as zero
(src/statement.go). -/
def InsertStatement.TTL (s : InsertStatement) : Int :=
  if s.ttl < 1 then 0 else s.ttl

/-- `WithTTL`: a duration below one nanosecond is stored as zero
(src/statement.go). -/
def InsertStatement.WithTTL (s : InsertStatement) (ttl : Int) : InsertStatement :=
  { s with ttl := if ttl < 1 then 0 else ttl }

/-- `WithClusteringSentinel` (src/statement.go). -/
def InsertStatement.WithClusteringSentinel (s : InsertStatement) (enabled : Bool) : InsertStatement :=
  { s with allowClusterSentinel := enabled }

/-- The bind value an INSERT emits for one field (the loop body of
`InsertStatement.QueryAndValues`, src/statement.go): a clustering column's
value passes through `ClusteringFieldOrSentinel` when the sentinel flag is
set. -/
def InsertStatement.bindOf (s : InsertStatement) (field : String) : BindValue :=
  if isClusteringKeyField field s.keys && s.allowClusterSentinel then
    ((fmGet s.fieldMap field).orSentinel).toBind
  else
    (fmGet s.fieldMap field).toBind

/-- The query parts of an INSERT before the optional TTL clause
(src/statement.go). -/
def InsertStatement.baseParts (s : InsertStatement) : List String :=
  ["INSERT INTO", s.keyspace ++ "." ++ s.table,
   "(" ++ goJoin ", " ((sortedKeys s.fieldMap).map goToLower) ++ ")",
   "VALUES (" ++ goJoin ", " ((sortedKeys s.fieldMap).map (fun _ => "?")) ++ ")"]

/-- The bind values of an INSERT before the optional TTL bind
(src/statement.go). -/
def InsertStatement.baseValues (s : InsertStatement) : List BindValue :=
  (sortedKeys s.fieldMap).map s.bindOf

/-- InsertStatement.QueryAndValues returns the CQL query and any bind
values (src/statement.go): columns iterate `sortedKeys`, lowercased; a
positive TTL appends `USING TTL ?` with the truncated second count. -/
def InsertStatement.QueryAndValues (s : InsertStatement) : String × List BindValue :=
  if s.TTL > 0 then
    (goJoin " " (s.baseParts ++ ["USING TTL ?"]),
     s.baseValues ++ [BindValue.val (.int (goSeconds s.TTL))])
  else
    (goJoin " " s.baseParts, s.baseValues)

/-- UpdateStatement represents an UPDATE query (src/statement.go). -/
structure UpdateStatement where
  keyspace : String
  table : String
  fieldMap : FieldMap
  whereRels : List Relation
  ttl : Int
  keys : Keys
  allowClusterSentinel : Bool
  deriving DecidableEq, Repr

/-- NewUpdateStatement validates its arguments and crafts a new
UpdateStatement (src/statement.go). -/
def NewUpdateStatement (keyspace table : String) (fieldMap : FieldMap)
    (rel : List Relation) (keys : Keys) : Except String UpdateStatement :=
  if keyspace = "" ∨ table = "" then
    .error "keyspace and table can't be empty"
  else if fieldMap.length < 1 then
    .error "fieldMap must be a map fields to insert"
  else if rel.length < 1 then
    .error "must supply at least one relation WHERE clause"
  else if keys.partitionKeys.length = 0 then
    .error "partition key should be supplied"
  else
    .ok { keyspace := keyspace, table := table, fieldMap := fieldMap,
          whereRels := rel, ttl := 0, keys := keys, allowClusterSentinel := false }

/-- `TTL()` of an update statement (src/statement.go). -/
def UpdateStatement.TTL (s : UpdateStatement) : Int :=
  if s.ttl < 1 then 0 else s.ttl

/-- `WithTTL` of an update statement (src/statement.go). -/
def UpdateStatement.WithTTL (s : UpdateStatement) (ttl : Int) : UpdateStatement :=
  { s with ttl := if ttl < 1 then 0 else ttl }

/-- `WithClusteringSentinel` (src/statement.go). -/
def UpdateStatement.WithClusteringSentinel (s : UpdateStatement) (enabled : Bool) : UpdateStatement :=
  { s with allowClusterSentinel := enabled }

/-- The query parts of an UPDATE before the SET clause: `UPDATE`, the
qualified table name, and the optional `USING TTL ?` (src/statement.go). -/
def UpdateStatement.headParts (s : UpdateStatement) : List String :=
  if s.TTL > 0 then ["UPDATE", s.keyspace ++ "." ++ s.table, "USING TTL ?"]
  else ["UPDATE", s.keyspace ++ "." ++ s.table]

/-- The bind values an UPDATE emits before the SET binds: the optional TTL
bind (src/statement.go). -/
def UpdateStatement.headValues (s : UpdateStatement) : List BindValue :=
  if s.TTL > 0 then [BindValue.val (.int (goSeconds s.TTL))] else []

/-- UpdateStatement.QueryAndValues returns the CQL query and any bind
values (src/statement.go): an optional `USING TTL ?` first, then the SET
clause from `generateUpdateSetCQL` (which sees neither keys nor the
sentinel flag), then the WHERE clause. -/
def UpdateStatement.QueryAndValues (s : UpdateStatement) : Option (String × List BindValue) :=
  (generateWhereCQL s.whereRels s.keys s.allowClusterSentinel).map
    fun wcv =>
      let queryB := s.headParts ++ ["SET", (generateUpdateSetCQL s.fieldMap).1]
      let valuesB := s.headValues ++ (generateUpdateSetCQL s.fieldMap).2
      if wcv.1 ≠ "" then
        (goJoin " " (queryB ++ ["WHERE", wcv.1]), valuesB ++ wcv.2)
      else
        (goJoin " " queryB, valuesB)

/-- DeleteStatement represents a DELETE query (src/statement.go). -/
structure DeleteStatement where
  keyspace : String
  table : String
  whereRels : List Relation
  keys : Keys
  allowClusterSentinel : Bool
  deriving DecidableEq, Repr

/-- NewDeleteStatement validates its arguments and crafts a new
DeleteStatement (src/statement.go). -/
def NewDeleteStatement (keyspace table : String) (rel : List Relation)
    (keys : Keys) : Except String DeleteStatement :=
  if keyspace = "" ∨ table = "" then
    .error "keyspace and table can't be empty"
  else if rel.length < 1 then
    .error "must supply at least one relation WHERE clause"
  else if keys.partitionKeys.length = 0 then
    .error "partition key should be supplied"
  else
    .ok { keyspace := keyspace, table := table, whereRels := rel, keys := keys,
          allowClusterSentinel := false }

/-- DeleteStatement.QueryAndValues returns the CQL query and any bind
values (src/statement.go). -/
def DeleteStatement.QueryAndValues (s : DeleteStatement) : Option (String × List BindValue) :=
  (generateWhereCQL s.whereRels s.keys s.allowClusterSentinel).map
    fun (whereCQL, whereValues) =>
      if whereCQL ≠ "" then
        ("DELETE FROM " ++ s.keyspace ++ "." ++ s.table ++ " WHERE " ++ whereCQL, whereValues)
      else
        ("DELETE FROM " ++ s.keyspace ++ "." ++ s.table, whereValues)

/-- A Go error as the scanner sees it: `gocql.ErrNotFound` or any other
error value. -/
inductive GoErr where
  | errNotFound
  | other (msg : String)
  deriving DecidableEq, Repr

/-- What `scanner.iterSingle` returns: success, the row-not-found sentinel
error, or a propagated error. -/
inductive ScanOutcome where
  | ok
  | rowNotFound
  | err (e : GoErr)
  deriving DecidableEq, Repr

/-- The iterator-consumption skeleton of `scanner.iterSingle`
(src/unnamed/part_000): rows the iterator would yield, the error its
`Err()` reports once exhausted, and the outcome of binding a row
(`generatePtrs` + `iter.Scan` + sentinel/zero fixups, abstracted into
`scanRow`; the reflective allocation of the target record, which precedes
any iterator call, is outside this model).  Returns the count of rows
scanned and the outcome. -/
def iterSingle {ρ : Type} (rows : List ρ) (iterErr : Option GoErr)
    (scanRow : ρ → Option GoErr) : Nat × ScanOutcome :=
  match rows with
  | [] =>
      match iterErr with
      | none => (0, .rowNotFound)
      | some .errNotFound => (0, .rowNotFound)
      | some e => (0, .err e)
  | r :: _ =>
      match scanRow r with
      | some e => (0, .err e)
      | none => (1, .ok)

/-- Count of `?` placeholder characters in a rendered CQL string. -/
def countQ (s : String) : Nat := s.data.count '?'

/-- Whether a relation has the shape every relation built by the public
constructors `Eq`, `In`, `GT`, `GTE`, `LT`, `LTE` (src/relation.go) has:
a non-`In` comparator with exactly one term, or `In`. -/
def constructorBuilt (r : Relation) : Bool :=
  match r.cmp with
  | .cmpEquality | .cmpGreaterThan | .cmpGreaterThanOrEquals
  | .cmpLesserThan | .cmpLesserThanOrEquals => r.terms.length = 1
  | .cmpIn => true
  | _ => false

/-- The bind values one field contributes to an UPDATE SET clause — the
loop body of `generateUpdateSetCQL` (src/statement.go), which receives
neither the table keys nor the sentinel flag. -/
def updateSetBindOf (fm : FieldMap) (fieldName : String) : List BindValue :=
  (updateSetClauseOf fm fieldName).2

example :
    (SelectStatement.QueryAndValues
      ⟨"ks1", "tbl1", ["a", "b", "c"], [], [], 0, false, ⟨["a"], []⟩, false⟩)
      = some ("SELECT a, b, c FROM ks1.tbl1", []) := by decide

example :
    (SelectStatement.QueryAndValues
      ⟨"ks1", "tbl1", ["a", "b", "c"],
        [Rel.Eq "foo" (.str "bar"), Rel.In "baz" [.str "bing"]],
        [⟨"a", .asc⟩], 10, true, ⟨["a"], []⟩, false⟩)
      = some ("SELECT a, b, c FROM ks1.tbl1 WHERE foo = ? AND baz IN ? ORDER BY a ASC LIMIT ? ALLOW FILTERING",
              [.val (.str "bar"), .list [.str "bing"], .val (.int 10)]) := by decide

example :
    (InsertStatement.QueryAndValues
      ⟨"ks1", "tbl1", [("a", .val (.str "b")), ("c", .val (.str "d"))],
        3600 * 1000000000, ⟨["a"], []⟩, false⟩)
      = ("INSERT INTO ks1.tbl1 (a, c) VALUES (?, ?) USING TTL ?",
         [.val (.str "b"), .val (.str "d"), .val (.int 3600)]) := by decide

example :
    (UpdateStatement.QueryAndValues
      ⟨"ks1", "tbl1", [("a", .val (.str "b")), ("c", .mod (.listAppend (.str "d")))],
        [Rel.Eq "foo" (.str "bar")], 0, ⟨["foo"], []⟩, false⟩)
      = some ("UPDATE ks1.tbl1 SET a = ?, c = c + ? WHERE foo = ?",
              [.val (.str "b"), .list [.str "d"], .val (.str "bar")]) := by decide

example :
    (UpdateStatement.QueryAndValues
      ⟨"ks1", "tbl1", [("c", .val (.str ""))],
        [Rel.Eq "a" (.str ""), Rel.Eq "b" (.str "")], 0, ⟨["a"], ["b"]⟩, true⟩)
      = some ("UPDATE ks1.tbl1 SET c = ? WHERE a = ? AND b = ?",
              [.val (.str ""), .val (.str ""), .val (.str ClusteringSentinel)]) := by decide

example :
    (InsertStatement.QueryAndValues
      ⟨"ks1", "tbl1", [("a", .val (.str "")), ("b", .val (.str "")), ("c", .val (.str ""))],
        0, ⟨["a"], ["b"]⟩, true⟩)
      = ("INSERT INTO ks1.tbl1 (a, b, c) VALUES (?, ?, ?)",
         [.val (.str ""), .val (.str ClusteringSentinel), .val (.str "")]) := by decide

example :
    (DeleteStatement.QueryAndValues
      ⟨"ks1", "tbl1", [Rel.Eq "a" (.str ""), Rel.Eq "b" (.str "")], ⟨["a"], ["b"]⟩, true⟩)
      = some ("DELETE FROM ks1.tbl1 WHERE a = ? AND b = ?",
              [.val (.str ""), .val (.str ClusteringSentinel)]) := by decide

example : ClusteringFieldOrSentinel (.str "") = .str ClusteringSentinel := by decide
example : ClusteringFieldOrSentinel (.int 0) = .int 0 := by decide
example : (IsClusteringSentinelValue (.str ClusteringSentinel)) = (true, .str "") := by decide
example : goJoin ", " ["a", "b", "c"] = "a, b, c" := by decide
example : sortedKeys [("b", .val .nil), ("a", .val .nil)] = ["a", "b"] := by decide
example : (Modifier.counterIncrement 0).cql "c" = ("c = c - ?", [.val (.int 0)]) := by decide
example : (Rel.In "foo" []).terms = [] := by decide
example : generateRelationCQL (Rel.Eq "FoO" (.str "")) ⟨[], ["foo"]⟩ true
    = some ("foo = ?", [.val (.str ClusteringSentinel)]) := by decide

/-- Whether a value has one of the three kinds the clustering-sentinel
substitution acts on: string, byte slice, or timestamp. -/
def clusteringKinded (v : GoValue) : Bool :=
  match v with
  | .str _ | .bytes _ | .time _ => true
  | _ => false

/-! ### Helper lemmas -/

theorem countQ_append (a b : String) : countQ (a ++ b) = countQ a + countQ b := by
  simp [countQ, String.data_append, List.count_append]

theorem countQ_goJoin (sep : String) (h : countQ sep = 0) :
    ∀ l : List String, countQ (goJoin sep l) = (l.map countQ).sum := by
  intro l
  induction l with
  | nil => simp [goJoin, countQ]
  | cons x xs ih =>
      cases xs with
      | nil => simp [goJoin]
      | cons y ys =>
          simp only [goJoin] at ih ⊢
          rw [countQ_append, countQ_append, h, ih]
          simp [List.map_cons, List.sum_cons]

theorem goListLe_total (as bs : List Char) : goListLe as bs = true ∨ goListLe bs as = true := by
  induction as generalizing bs with
  | nil => left; simp [goListLe]
  | cons a as ih =>
      cases bs with
      | nil => right; simp [goListLe]
      | cons b bs =>
          simp only [goListLe]
          rcases Nat.lt_trichotomy a.toNat b.toNat with h | h | h
      
          · left; simp [h]
          · have h1 : ¬ a.toNat < b.toNat := by omega
            have h2 : ¬ b.toNat < a.toNat := by omega
            simpa [h1, h2] using ih bs
          · right; simp [h]

theorem goListLe_trans (as bs cs : List Char) (h1 : goListLe as bs = true)
    (h2 : goListLe bs cs = true) : goListLe as cs = true := by
  induction as generalizing bs cs with
  | nil => simp [goListLe]
  | cons a as ih =>
      cases bs with
      | nil => simp [goListLe] at h1
      | cons b bs =>
          cases cs with
          | nil => simp [goListLe] at h2
          | cons c cs =>
              simp only [goListLe] at h1 h2 ⊢
              split_ifs at h1 h2 ⊢ <;>
                first
                  | rfl
                  | omega
                  | exact ih bs cs h1 h2

theorem goStrLe_total (a b : String) : goStrLe a b = true ∨ goStrLe b a = true :=
  goListLe_total a.data b.data

theorem goStrLe_trans {a b c : String} (h1 : goStrLe a b = true)
    (h2 : goStrLe b c = true) : goStrLe a c = true :=
  goListLe_trans a.data b.data c.data h1 h2

theorem insertSorted_perm (x : String) (l : List String) :
    List.Perm (insertSorted x l) (x :: l) := by
  induction l with
  | nil => simp [insertSorted]
  | cons y ys ih =>
      simp only [insertSorted]
      split
      · exact List.Perm.refl _
      · exact (ih.cons y).trans (List.Perm.swap x y ys)

theorem goSortStrings_perm (l : List String) : List.Perm (goSortStrings l) l := by
  induction l with
  | nil => simp [goSortStrings]
  | cons x xs ih =>
      simp only [goSortStrings, List.foldr_cons]
      exact (insertSorted_perm x _).trans (ih.cons x)

theorem insertSorted_pairwise (x : String) (l : List String)
    (h : List.Pairwise (fun a b => goStrLe a b = true) l) :
    List.Pairwise (fun a b => goStrLe a b = true) (insertSorted x l) := by
  induction l with
  | nil => simp [insertSorted]
  | cons y ys ih =>
      simp only [insertSorted]
      rcases h with _ | ⟨hy, hys⟩
      split
      · case isTrue hxy =>
          refine List.Pairwise.cons ?_ (List.Pairwise.cons hy hys)
          intro z hz
          rcases List.mem_cons.mp hz with rfl | hz
          · exact hxy
          · exact goStrLe_trans hxy (hy z hz)
      · case isFalse hxy =>
          have hyx : goStrLe y x = true := by
            rcases goStrLe_total x y with h' | h'
            · exact absurd h' hxy
            · exact h'
          refine List.Pairwise.cons ?_ (ih hys)
          intro z hz
          have := (insertSorted_perm x ys).mem_iff.mp hz
          rcases List.mem_cons.mp this with rfl | hz'
          · exact hyx
          · exact hy z hz'

theorem goSortStrings_pairwise (l : List String) :
    List.Pairwise (fun a b => goStrLe a b = true) (goSortStrings l) := by
  induction l with
  | nil => simp [goSortStrings]
  | cons x xs ih =>
      simp only [goSortStrings, List.foldr_cons] at ih ⊢
      exact insertSorted_pairwise x _ ih

theorem goJoin_append_single (sep x : String) :
    ∀ (l : List String), l ≠ [] → goJoin sep (l ++ [x]) = goJoin sep l ++ sep ++ x := by
  intro l
  induction l with
  | nil => intro h; exact absurd rfl h
  | cons a as ih =>
      intro _
      cases as with
      | nil => simp [goJoin]
      | cons b bs =>
          have key := ih (by simp)
          simp only [List.cons_append] at key ⊢
          simp only [goJoin]
          rw [key]
          simp [String.append_assoc]

/-! ### Claim C2: sentinel round-trip -/

/-- C2 counterexample: for `x` equal to the sentinel string itself,
stripping the result of substitution yields the empty string, not `x` —
the round-trip law fails at the sentinel values. -/
theorem c2_roundtrip_counterexample :
    (IsClusteringSentinelValue (ClusteringFieldOrSentinel (.str ClusteringSentinel))).2
        = .str "" ∧
    GoValue.str "" ≠ .str ClusteringSentinel := by decide

/-- C2 (amended): for every value of kind string, byte slice or timestamp
that is not itself the sentinel value of its kind, stripping the clustering
sentinel from the result of substituting it returns the value itself. -/
theorem c2_roundtrip (v : GoValue) (hk : clusteringKinded v = true)
    (hs : v ≠ .str ClusteringSentinel) (hb : v ≠ .bytes ClusteringSentinel)
    (ht : v ≠ .time ClusteringSentinelTimestampNs) :
    (IsClusteringSentinelValue (ClusteringFieldOrSentinel v)).2 = v := by
  cases v with
  | str s =>
      by_cases h0 : s = ""
      · subst h0; decide
      · have hs' : s ≠ ClusteringSentinel := fun e => hs (by rw [e])
        simp [ClusteringFieldOrSentinel, IsClusteringSentinelValue, h0, hs']
  | bytes bs =>
      by_cases h0 : bs = ""
      · subst h0; decide
      · have hb' : bs ≠ ClusteringSentinel := fun e => hb (by rw [e])
        simp [ClusteringFieldOrSentinel, IsClusteringSentinelValue, h0, hb']
  | time ns =>
      by_cases h0 : ns = goZeroTimeNs
      · subst h0; decide
      · have ht' : ns ≠ ClusteringSentinelTimestampNs := fun e => ht (by rw [e])
        simp [ClusteringFieldOrSentinel, IsClusteringSentinelValue, h0, ht']
  | nil => simp [clusteringKinded] at hk
  | dur ns => simp [clusteringKinded] at hk
  | int n => simp [clusteringKinded] at hk
  | i64 n => simp [clusteringKinded] at hk
  | bool b => simp [clusteringKinded] at hk

/-- C2 witness: the amended round-trip at the empty string. -/
theorem c2_roundtrip_witness :
    clusteringKinded (.str "") = true ∧
    (IsClusteringSentinelValue (ClusteringFieldOrSentinel (.str ""))).2 = .str "" :=
  ⟨by decide, c2_roundtrip (.str "") (by decide) (by decide) (by decide) (by decide)⟩

/-! ### Claim C5: counter-increment rendering -/

/-- C5 counterexample: at `n = 0` the rendered fragment is `c = c - ?`, not
the `c = c + ?` the claim requires for every `n ≥ 0` (the code tests
`val > 0`, not `val >= 0`). -/
theorem c5_counter_counterexample :
    (CounterIncrement 0).cql "c" = ("c = c - ?", [.val (.int 0)]) ∧
    "c = c - ?" ≠ "c = c + ?" := by decide

/-- C5 (amended): `CounterIncrement n` renders `c = c + ?` when `n > 0`
with bind `n`, and `c = c - ?` when `n ≤ 0` with bind `goIntNeg n`, Go's
wrapping `int` negation of `n`: that is the absolute value of `n` for every
`n` above `math.MinInt64`, while at `n = math.MinInt64` the negation wraps
and the bind is `math.MinInt64` itself. -/
theorem c5_counter_rendering (n : Int) (c : String) :
    ((CounterIncrement n).cql c =
      if n > 0 then (c ++ " = " ++ c ++ " + ?", [.val (.int n)])
      else (c ++ " = " ++ c ++ " - ?", [.val (.int (goIntNeg n))])) ∧
    (-(2 ^ 63) < n → n ≤ 0 → goIntNeg n = -n) ∧
    goIntNeg (-(2 ^ 63)) = -(2 ^ 63) := by
  refine ⟨rfl, ?_, ?_⟩
  · intro hlo hhi
    simp only [goIntNeg]
    omega
  · simp only [goIntNeg]
    decide

/-- C5 witness: the amended rendering at `n = -3`, where the wrapped
negation is the exact negation. -/
theorem c5_counter_rendering_witness :
    ((CounterIncrement (-3)).cql "c" =
      if (-3 : Int) > 0 then ("c" ++ " = " ++ "c" ++ " + ?", [.val (.int (-3))])
      else ("c" ++ " = " ++ "c" ++ " - ?", [.val (.int (goIntNeg (-3)))])) ∧
    goIntNeg (-3) = -(-3) :=
  ⟨(c5_counter_rendering (-3) "c").1,
   (c5_counter_rendering (-3) "c").2.1 (by decide) (by decide)⟩

/-! ### Claim C9: constructor term invariant -/

/-- C9 counterexample: `In` with an empty variadic argument list produces a
relation whose comparator is `In` but which has zero terms, violating the
one-or-more-terms invariant the claim states for every constructor-built
relation. -/
theorem c9_invariant_counterexample :
    (Rel.In "foo" []).cmp = .cmpIn ∧ ¬ 1 ≤ (Rel.In "foo" []).terms.length := by decide

/-- C9 (amended): the non-`In` constructors produce exactly one term; `In`
produces exactly the terms supplied, so it satisfies the one-or-more
invariant only when at least one term is passed. -/
theorem c9_invariant (f : String) (t : GoValue) (ts : List GoValue) :
    ((Rel.Eq f t).cmp ≠ .cmpIn ∧ (Rel.Eq f t).terms.length = 1) ∧
    ((Rel.GT f t).cmp ≠ .cmpIn ∧ (Rel.GT f t).terms.length = 1) ∧
    ((Rel.GTE f t).cmp ≠ .cmpIn ∧ (Rel.GTE f t).terms.length = 1) ∧
    ((Rel.LT f t).cmp ≠ .cmpIn ∧ (Rel.LT f t).terms.length = 1) ∧
    ((Rel.LTE f t).cmp ≠ .cmpIn ∧ (Rel.LTE f t).terms.length = 1) ∧
    ((Rel.In f ts).cmp = .cmpIn ∧ (Rel.In f ts).terms = ts) := by
  exact ⟨⟨(by decide : Comparator.cmpEquality ≠ .cmpIn), rfl⟩,
    ⟨(by decide : Comparator.cmpGreaterThan ≠ .cmpIn), rfl⟩,
    ⟨(by decide : Comparator.cmpGreaterThanOrEquals ≠ .cmpIn), rfl⟩,
    ⟨(by decide : Comparator.cmpLesserThan ≠ .cmpIn), rfl⟩,
    ⟨(by decide : Comparator.cmpLesserThanOrEquals ≠ .cmpIn), rfl⟩, rfl, rfl⟩

/-! ### Claim C6: single-record scan -/

/-- C6: with a pointer-to-record target, `iterSingle` scans at most one
row; an empty iterator with no error or only the not-found error yields
`RowNotFoundError` with zero rows scanned; otherwise exactly the first row
is bound (the outcome ignores the tail and the iterator error). -/
theorem c6_iter_single (ρ : Type) (r : ρ) (rest : List ρ) (e : Option GoErr)
    (scanRow : ρ → Option GoErr) :
    (iterSingle ([] : List ρ) none scanRow = (0, .rowNotFound)) ∧
    (iterSingle ([] : List ρ) (some .errNotFound) scanRow = (0, .rowNotFound)) ∧
    (∀ msg, iterSingle ([] : List ρ) (some (.other msg)) scanRow
        = (0, .err (.other msg))) ∧
    (iterSingle (r :: rest) e scanRow = iterSingle [r] none scanRow) ∧
    ((iterSingle (r :: rest) e scanRow).1 ≤ 1) ∧
    (scanRow r = none → iterSingle (r :: rest) e scanRow = (1, .ok)) := by
  refine ⟨rfl, rfl, fun msg => rfl, rfl, ?_, ?_⟩
  · simp only [iterSingle]
    cases scanRow r <;> simp
  · intro h
    simp [iterSingle, h]

/-- C6 witness: a two-row iterator scans exactly the first row. -/
theorem c6_iter_single_witness :
    iterSingle ([10, 20] : List Nat) none (fun _ => none) = (1, .ok) :=
  (c6_iter_single Nat 10 [20] none (fun _ => none)).2.2.2.2.2 rfl

/-! ### Claim C7: constructor validation -/

/-- C7: each statement constructor errors exactly on empty keyspace/table,
missing fields / field map / relations (as applicable to its statement
kind) or empty partition keys, and otherwise succeeds with a statement
carrying the supplied keyspace, table, fields, relations and keys. -/
theorem c7_constructors (ks tbl : String) (fields : List String)
    (rel : List Relation) (keys : Keys) (fm : FieldMap) :
    (((ks = "" ∨ tbl = "" ∨ fields = [] ∨ keys.partitionKeys = []) →
        ∃ e, NewSelectStatement ks tbl fields rel keys = .error e) ∧
      (ks ≠ "" → tbl ≠ "" → fields ≠ [] → keys.partitionKeys ≠ [] →
        NewSelectStatement ks tbl fields rel keys =
          .ok ⟨ks, tbl, fields, rel, [], 0, false, keys, false⟩)) ∧
    (((ks = "" ∨ tbl = "" ∨ fm = [] ∨ keys.partitionKeys = []) →
        ∃ e, NewInsertStatement ks tbl fm keys = .error e) ∧
      (ks ≠ "" → tbl ≠ "" → fm ≠ [] → keys.partitionKeys ≠ [] →
        NewInsertStatement ks tbl fm keys = .ok ⟨ks, tbl, fm, 0, keys, false⟩)) ∧
    (((ks = "" ∨ tbl = "" ∨ fm = [] ∨ rel = [] ∨ keys.partitionKeys = []) →
        ∃ e, NewUpdateStatement ks tbl fm rel keys = .error e) ∧
      (ks ≠ "" → tbl ≠ "" → fm ≠ [] → rel ≠ [] → keys.partitionKeys ≠ [] →
        NewUpdateStatement ks tbl fm rel keys =
          .ok ⟨ks, tbl, fm, rel, 0, keys, false⟩)) ∧
    (((ks = "" ∨ tbl = "" ∨ rel = [] ∨ keys.partitionKeys = []) →
        ∃ e, NewDeleteStatement ks tbl rel keys = .error e) ∧
      (ks ≠ "" → tbl ≠ "" → rel ≠ [] → keys.partitionKeys ≠ [] →
        NewDeleteStatement ks tbl rel keys = .ok ⟨ks, tbl, rel, keys, false⟩)) := by
  refine ⟨⟨?_, ?_⟩, ⟨?_, ?_⟩, ⟨?_, ?_⟩, ⟨?_, ?_⟩⟩
  · intro h
    unfold NewSelectStatement
    split_ifs with h1 h2 h3
    · exact ⟨_, rfl⟩
    · exact ⟨_, rfl⟩
    · exact ⟨_, rfl⟩
    · exfalso
      rcases h with h | h | h | h
      · exact h1 (Or.inl h)
      · exact h1 (Or.inr h)
      · exact h2 (by simp [h])
      · exact h3 (by simp [h])
  · intro h1 h2 h3 h4
    have g1 : ¬ (ks = "" ∨ tbl = "") := by tauto
    have g2 : ¬ (fields.length < 1) := by
      have := List.length_pos.mpr h3; omega
    have g3 : ¬ (keys.partitionKeys.length = 0) := by
      have := List.length_pos.mpr h4; omega
    simp [NewSelectStatement, g1, g2, g3]
  · intro h
    unfold NewInsertStatement
    split_ifs with h1 h2 h3
    · exact ⟨_, rfl⟩
    · exact ⟨_, rfl⟩
    · exact ⟨_, rfl⟩
    · exfalso
      rcases h with h | h | h | h
      · exact h1 (Or.inl h)
      · exact h1 (Or.inr h)
      · exact h2 (by simp [h])
      · exact h3 (by simp [h])
  · intro h1 h2 h3 h4
    have g1 : ¬ (ks = "" ∨ tbl = "") := by tauto
    have g2 : ¬ (fm.length < 1) := by
      have := List.length_pos.mpr h3; omega
    have g3 : ¬ (keys.partitionKeys.length = 0) := by
      have := List.length_pos.mpr h4; omega
    simp [NewInsertStatement, g1, g2, g3]
  · intro h
    unfold NewUpdateStatement
    split_ifs with h1 h2 h3 h4
    · exact ⟨_, rfl⟩
    · exact ⟨_, rfl⟩
    · exact ⟨_, rfl⟩
    · exact ⟨_, rfl⟩
    · exfalso
      rcases h with h | h | h | h | h
      · exact h1 (Or.inl h)
      · exact h1 (Or.inr h)
      · exact h2 (by simp [h])
      · exact h3 (by simp [h])
      · exact h4 (by simp [h])
  · intro h1 h2 h3 h4 h5
    have g1 : ¬ (ks = "" ∨ tbl = "") := by tauto
    have g2 : ¬ (fm.length < 1) := by
      have := List.length_pos.mpr h3; omega
    have g3 : ¬ (rel.length < 1) := by
      have := List.length_pos.mpr h4; omega
    have g4 : ¬ (keys.partitionKeys.length = 0) := by
      have := List.length_pos.mpr h5; omega
    simp [NewUpdateStatement, g1, g2, g3, g4]
  · intro h
    unfold NewDeleteStatement
    split_ifs with h1 h2 h3
    · exact ⟨_, rfl⟩
    · exact ⟨_, rfl⟩
    · exact ⟨_, rfl⟩
    · exfalso
      rcases h with h | h | h | h
      · exact h1 (Or.inl h)
      · exact h1 (Or.inr h)
      · exact h2 (by simp [h])
      · exact h3 (by simp [h])
  · intro h1 h2 h3 h4
    have g1 : ¬ (ks = "" ∨ tbl = "") := by tauto
    have g2 : ¬ (rel.length < 1) := by
      have := List.length_pos.mpr h3; omega
    have g3 : ¬ (keys.partitionKeys.length = 0) := by
      have := List.length_pos.mpr h4; omega
    simp [NewDeleteStatement, g1, g2, g3]

/-- C7 witness: a valid SELECT constructor call succeeds with the supplied
data, and an empty keyspace makes DELETE construction fail. -/
theorem c7_constructors_witness :
    NewSelectStatement "ks1" "tbl1" ["a"] [] ⟨["a"], []⟩ =
      .ok ⟨"ks1", "tbl1", ["a"], [], [], 0, false, ⟨["a"], []⟩, false⟩ ∧
    (∃ e, NewDeleteStatement "" "tbl1" [] ⟨["a"], []⟩ = .error e) :=
  ⟨(c7_constructors "ks1" "tbl1" ["a"] [] ⟨["a"], []⟩ []).1.2
      (by decide) (by decide) (by decide) (by decide),
   (c7_constructors "" "tbl1" ["a"] [] ⟨["a"], []⟩ []).2.2.2.1 (Or.inl rfl)⟩

/-! ### Claim C8: relation evaluation -/

/-- C8: `accept` coerces the cell and each term via `convertToPrimitive`
(timestamp and duration to nanoseconds as `int64`, byte slice to its byte
string, string-kinded values to strings); equality and `In` hold exactly
when the coerced cell equals some coerced term, and the ordering
comparators compare the coerced primitives through the builtin
comparisons, yielding `false` without an error when the kinds cannot be
compared. -/
theorem c8_relation_accept :
    (∀ ns, convertToPrimitive (.time ns) = .i64 ns) ∧
    (∀ ns, convertToPrimitive (.dur ns) = .i64 ns) ∧
    (∀ bs, convertToPrimitive (.bytes bs) = .str bs) ∧
    (∀ s, convertToPrimitive (.str s) = .str s) ∧
    (∀ f t v, (Rel.Eq f t).accept v = true ↔
        convertToPrimitive v = convertToPrimitive t) ∧
    (∀ f ts v, (Rel.In f ts).accept v = true ↔
        ∃ t ∈ ts, convertToPrimitive v = convertToPrimitive t) ∧
    (∀ f t v, (Rel.GT f t).accept v =
        (builtinGreaterThan (convertToPrimitive v) (convertToPrimitive t)).getD false) ∧
    (∀ f t v, (Rel.LT f t).accept v =
        (builtinLessThan (convertToPrimitive v) (convertToPrimitive t)).getD false) ∧
    (∀ f t v, (Rel.GTE f t).accept v =
        match builtinGreaterThan (convertToPrimitive v) (convertToPrimitive t) with
        | none => false
        | some res => res || (convertToPrimitive v == convertToPrimitive t)) ∧
    (∀ f t v, (Rel.LTE f t).accept v =
        match builtinLessThan (convertToPrimitive v) (convertToPrimitive t) with
        | none => false
        | some res => res || (convertToPrimitive v == convertToPrimitive t)) ∧
    (∀ f t v, builtinGreaterThan (convertToPrimitive v) (convertToPrimitive t) = none →
        (Rel.GT f t).accept v = false ∧ (Rel.GTE f t).accept v = false) ∧
    (∀ f t v, builtinLessThan (convertToPrimitive v) (convertToPrimitive t) = none →
        (Rel.LT f t).accept v = false ∧ (Rel.LTE f t).accept v = false) := by
  refine ⟨fun ns => rfl, fun ns => rfl, fun bs => rfl, fun s => rfl,
    ?_, ?_, fun f t v => rfl, fun f t v => rfl, fun f t v => rfl, fun f t v => rfl,
    ?_, ?_⟩
  · intro f t v
    simp [Relation.accept, Rel.Eq, anyEquals, toI]
  · intro f ts v
    simp [Relation.accept, Rel.In, anyEquals, List.any_eq_true]
  · intro f t v h
    constructor
    · show (builtinGreaterThan (convertToPrimitive v) (convertToPrimitive t)).getD false = false
      rw [h]; rfl
    · show (match builtinGreaterThan (convertToPrimitive v) (convertToPrimitive t) with
        | none => false
        | some res => res || (convertToPrimitive v == convertToPrimitive t)) = false
      rw [h]
  · intro f t v h
    constructor
    · show (builtinLessThan (convertToPrimitive v) (convertToPrimitive t)).getD false = false
      rw [h]; rfl
    · show (match builtinLessThan (convertToPrimitive v) (convertToPrimitive t) with
        | none => false
        | some res => res || (convertToPrimitive v == convertToPrimitive t)) = false
      rw [h]

/-- C8 witness: comparing a string cell against an integer term — kinds
that cannot be compared — yields `false` without an error. -/
theorem c8_relation_accept_witness :
    builtinGreaterThan (convertToPrimitive (.str "a")) (convertToPrimitive (.int 1)) = none ∧
    (Rel.GT "f" (.int 1)).accept (.str "a") = false :=
  ⟨by decide,
   ((c8_relation_accept.2.2.2.2.2.2.2.2.2.2.1) "f" (.int 1) (.str "a") (by decide)).1⟩

/-! ### Claim C10: sub-second positive TTL renders as TTL 0 -/

/-- C10: a positive TTL below one second survives `WithTTL` and `TTL()`
unchanged (only durations below one nanosecond are zeroed), so the
statement renders the `USING TTL ?` clause with bind value 0 — the
truncated second count — rather than omitting it.  For INSERT the TTL bind
is last; for UPDATE it is first. -/
theorem c10_subsecond_ttl (s : InsertStatement) (u : UpdateStatement) (ns : Int)
    (h1 : 0 < ns) (h2 : ns < 1000000000) :
    ((s.WithTTL ns).TTL = ns ∧
      (s.WithTTL ns).QueryAndValues =
        (goJoin " " (s.WithTTL ns).baseParts ++ " " ++ "USING TTL ?",
         (s.WithTTL ns).baseValues ++ [BindValue.val (.int 0)])) ∧
    ((u.WithTTL ns).TTL = ns ∧
      ∀ q vs, (u.WithTTL ns).QueryAndValues = some (q, vs) →
        (∃ suf, q = "UPDATE" ++ " " ++ ((u.keyspace ++ "." ++ u.table) ++ " " ++
          ("USING TTL ?" ++ " " ++ suf))) ∧
        vs.head? = some (BindValue.val (.int 0))) := by
  have hns1 : ¬ ns < 1 := by omega
  have hsec : goSeconds ns = 0 := by
    simp only [goSeconds]
    omega
  have hTTLi : (s.WithTTL ns).TTL = ns := by
    simp [InsertStatement.WithTTL, InsertStatement.TTL, hns1]
  have hTTLu : (u.WithTTL ns).TTL = ns := by
    simp [UpdateStatement.WithTTL, UpdateStatement.TTL, hns1]
  refine ⟨⟨hTTLi, ?_⟩, ⟨hTTLu, ?_⟩⟩
  · have hpos : (s.WithTTL ns).TTL > 0 := by rw [hTTLi]; omega
    rw [InsertStatement.QueryAndValues, if_pos hpos, hTTLi, hsec]
    rw [goJoin_append_single " " "USING TTL ?" _ (by simp [InsertStatement.baseParts])]
  · intro q vs h
    have hpos : (u.WithTTL ns).TTL > 0 := by rw [hTTLu]; omega
    rw [UpdateStatement.QueryAndValues] at h
    rcases Option.map_eq_some'.mp h with ⟨wcv, hw, hqv⟩
    have hhead : (u.WithTTL ns).headParts =
        ["UPDATE", u.keyspace ++ "." ++ u.table, "USING TTL ?"] := by
      rw [UpdateStatement.headParts, if_pos hpos]
      rfl
    have hheadv : (u.WithTTL ns).headValues = [BindValue.val (.int 0)] := by
      rw [UpdateStatement.headValues, if_pos hpos, hTTLu, hsec]
    simp only [hhead, hheadv] at hqv
    split at hqv
    · cases hqv
      exact ⟨⟨goJoin " "
          ["SET", (generateUpdateSetCQL (u.WithTTL ns).fieldMap).1, "WHERE", wcv.1], rfl⟩, rfl⟩
    · cases hqv
      exact ⟨⟨goJoin " " ["SET", (generateUpdateSetCQL (u.WithTTL ns).fieldMap).1], rfl⟩, rfl⟩

/-- C10 witness: a half-second TTL on concrete INSERT and UPDATE
statements renders `USING TTL ?` with bind 0. -/
theorem c10_subsecond_ttl_witness :
    ((InsertStatement.WithTTL ⟨"ks1", "tbl1", [("a", .val (.str "b"))], 0, ⟨["a"], []⟩, false⟩
        500000000).TTL = 500000000 ∧
      (InsertStatement.WithTTL ⟨"ks1", "tbl1", [("a", .val (.str "b"))], 0, ⟨["a"], []⟩, false⟩
        500000000).QueryAndValues =
        (goJoin " " (InsertStatement.WithTTL
            ⟨"ks1", "tbl1", [("a", .val (.str "b"))], 0, ⟨["a"], []⟩, false⟩
            500000000).baseParts ++ " " ++ "USING TTL ?",
         (InsertStatement.WithTTL ⟨"ks1", "tbl1", [("a", .val (.str "b"))], 0, ⟨["a"], []⟩, false⟩
            500000000).baseValues ++ [BindValue.val (.int 0)])) ∧
    ((UpdateStatement.WithTTL
        ⟨"ks1", "tbl1", [("a", .val (.str "b"))], [Rel.Eq "foo" (.str "bar")], 0,
          ⟨["foo"], []⟩, false⟩ 500000000).TTL = 500000000 ∧
      ∀ q vs, (UpdateStatement.WithTTL
          ⟨"ks1", "tbl1", [("a", .val (.str "b"))], [Rel.Eq "foo" (.str "bar")], 0,
            ⟨["foo"], []⟩, false⟩ 500000000).QueryAndValues = some (q, vs) →
        (∃ suf, q = "UPDATE" ++ " " ++ (("ks1" ++ "." ++ "tbl1") ++ " " ++
          ("USING TTL ?" ++ " " ++ suf))) ∧
        vs.head? = some (BindValue.val (.int 0))) :=
  c10_subsecond_ttl
    ⟨"ks1", "tbl1", [("a", .val (.str "b"))], 0, ⟨["a"], []⟩, false⟩
    ⟨"ks1", "tbl1", [("a", .val (.str "b"))], [Rel.Eq "foo" (.str "bar")], 0, ⟨["foo"], []⟩, false⟩
    500000000 (by decide) (by decide)

/-! ### Claim C3: INSERT column order and bind alignment -/

/-- C3 counterexample: with field map keys `B` and `a`, Go sorts the
original names (`B` before `a`, since uppercase bytes sort first) and only
then lowercases, so the emitted column list is `(b, a)` — not the
ascending order of the lowercased names, under which `a` precedes `b`. -/
theorem c3_insert_columns_counterexample :
    (InsertStatement.QueryAndValues
        ⟨"ks1", "tbl1", [("B", .val (.int 1)), ("a", .val (.int 2))], 0, ⟨["a"], []⟩, false⟩)
      = ("INSERT INTO ks1.tbl1 (b, a) VALUES (?, ?)", [.val (.int 1), .val (.int 2)]) ∧
    goToLower "B" = "b" ∧ goStrLe "b" "a" = false := by decide

/-- C3 (amended): the emitted column list is the lowercasing of the field
map's keys sorted ascending in Go's byte-wise order of the *original*
names (which coincides with sorted-by-lowercased-name only when no keys
differ in case), and the bind values follow that same order, one bind per
column taken from the field map. -/
theorem c3_insert_columns (s : InsertStatement) :
    s.QueryAndValues =
      (goJoin " " (["INSERT INTO", s.keyspace ++ "." ++ s.table,
          "(" ++ goJoin ", " ((sortedKeys s.fieldMap).map goToLower) ++ ")",
          "VALUES (" ++ goJoin ", " ((sortedKeys s.fieldMap).map (fun _ => "?")) ++ ")"] ++
          (if s.TTL > 0 then ["USING TTL ?"] else [])),
       (sortedKeys s.fieldMap).map s.bindOf ++
         (if s.TTL > 0 then [BindValue.val (.int (goSeconds s.TTL))] else [])) ∧
    List.Pairwise (fun a b => goStrLe a b = true) (sortedKeys s.fieldMap) ∧
    List.Perm (sortedKeys s.fieldMap) (s.fieldMap.map Prod.fst) := by
  refine ⟨?_, goSortStrings_pairwise _, goSortStrings_perm _⟩
  rw [InsertStatement.QueryAndValues]
  split_ifs with h
  · rfl
  · rw [List.append_nil, List.append_nil]
    rfl

/-! ### Claim C1: where the clustering sentinel is substituted -/

/-- C1 counterexample: an UPDATE with sentinels enabled whose field map
assigns the empty string to the clustering column `b` renders the SET bind
for `b` as the raw empty string, not the sentinel —
`generateUpdateSetCQL` never substitutes. -/
theorem c1_sentinel_sites_counterexample :
    (UpdateStatement.QueryAndValues
        ⟨"ks1", "tbl1", [("b", .val (.str ""))], [Rel.Eq "a" (.str "")], 0,
          ⟨["a"], ["b"]⟩, true⟩)
      = some ("UPDATE ks1.tbl1 SET b = ? WHERE a = ?",
              [.val (.str ""), .val (.str "")]) ∧
    isClusteringKeyField "b" ⟨["a"], ["b"]⟩ = true ∧
    BindValue.val (.str "") ≠ .val (.str ClusteringSentinel) := by decide

/-- C1 (amended): sentinel substitution applies to INSERT column values and
to WHERE equality values exactly when the column is a clustering column
(case-insensitive) and the statement's sentinel flag is enabled; it never
applies to non-clustering columns, to non-equality WHERE comparators, nor
to UPDATE SET values (whose binds are always the raw field-map values). -/
theorem c1_sentinel_sites :
    (∀ (s : InsertStatement) (i : Nat) (f : String),
      (sortedKeys s.fieldMap)[i]? = some f →
      (s.QueryAndValues.2)[i]? = some (s.bindOf f) ∧
      (∀ v, fmGet s.fieldMap f = .val v →
        s.bindOf f =
          if isClusteringKeyField f s.keys && s.allowClusterSentinel then
            .val (ClusteringFieldOrSentinel v)
          else .val v)) ∧
    (∀ (f : String) (t : GoValue) (keys : Keys) (en : Bool),
      generateRelationCQL (Rel.Eq f t) keys en =
        some (goToLower f ++ " = ?",
          [.val (if isClusteringKeyField f keys && en then ClusteringFieldOrSentinel t
                 else t)])) ∧
    (∀ (f : String) (t : GoValue) (ts : List GoValue) (keys : Keys) (en : Bool),
      generateRelationCQL (Rel.GT f t) keys en = some (goToLower f ++ " > ?", [.val t]) ∧
      generateRelationCQL (Rel.GTE f t) keys en = some (goToLower f ++ " >= ?", [.val t]) ∧
      generateRelationCQL (Rel.LT f t) keys en = some (goToLower f ++ " < ?", [.val t]) ∧
      generateRelationCQL (Rel.LTE f t) keys en = some (goToLower f ++ " <= ?", [.val t]) ∧
      generateRelationCQL (Rel.In f ts) keys en = some (goToLower f ++ " IN ?", [.list ts])) ∧
    (∀ (u : UpdateStatement) (q : String) (vs : List BindValue),
      u.QueryAndValues = some (q, vs) →
      (∃ wv, vs = u.headValues ++
          ((sortedKeys u.fieldMap).map (updateSetBindOf u.fieldMap)).flatten ++ wv) ∧
      (∀ f v, fmGet u.fieldMap f = .val v →
        updateSetBindOf u.fieldMap f = [BindValue.val v])) := by
  refine ⟨?_, ?_, ?_, ?_⟩
  · intro s i f hf
    have hi : i < (sortedKeys s.fieldMap).length := by
      by_contra hge
      rw [List.getElem?_eq_none (by omega)] at hf
      exact Option.noConfusion hf
    constructor
    · have hbase : ((sortedKeys s.fieldMap).map s.bindOf)[i]? = some (s.bindOf f) := by
        rw [List.getElem?_map, hf]
        rfl
      rw [InsertStatement.QueryAndValues]
      split_ifs with h
      · show ((sortedKeys s.fieldMap).map s.bindOf ++ _)[i]? = _
        rw [List.getElem?_append_left (by simpa using hi)]
        exact hbase
      · exact hbase
    · intro v hv
      by_cases hc : isClusteringKeyField f s.keys && s.allowClusterSentinel <;>
        simp [InsertStatement.bindOf, hc, hv, FieldVal.orSentinel, FieldVal.toBind]
  · intro f t keys en
    by_cases hc : isClusteringKeyField f keys && en <;>
      simp [generateRelationCQL, Rel.Eq, toI, hc]
  · intro f t ts keys en
    exact ⟨rfl, rfl, rfl, rfl, rfl⟩
  · intro u q vs h
    rw [UpdateStatement.QueryAndValues] at h
    rcases Option.map_eq_some'.mp h with ⟨wcv, hw, hqv⟩
    constructor
    · split at hqv
      · cases hqv
        exact ⟨wcv.2, rfl⟩
      · cases hqv
        refine ⟨[], ?_⟩
        rw [List.append_nil]
        rfl
    · intro f v hv
      simp [updateSetBindOf, updateSetClauseOf, hv]

/-- C1 witness: the amended sentinel-site characterisation at a concrete
INSERT with a clustering column holding an empty string. -/
theorem c1_sentinel_sites_witness :
    ((InsertStatement.QueryAndValues
        ⟨"ks1", "tbl1", [("a", .val (.str "x")), ("b", .val (.str ""))], 0,
          ⟨["a"], ["b"]⟩, true⟩).2)[1]? =
      some (InsertStatement.bindOf
        ⟨"ks1", "tbl1", [("a", .val (.str "x")), ("b", .val (.str ""))], 0,
          ⟨["a"], ["b"]⟩, true⟩ "b") :=
  ((c1_sentinel_sites.1
      ⟨"ks1", "tbl1", [("a", .val (.str "x")), ("b", .val (.str ""))], 0, ⟨["a"], ["b"]⟩, true⟩
      1 "b" (by decide))).1

/-! ### Claim C4: placeholders balance bind values -/

theorem relationCQL_count (r : Relation) (keys : Keys) (en : Bool)
    (hb : constructorBuilt r = true) (hf : countQ (goToLower r.field) = 0) :
    ∃ c vs, generateRelationCQL r keys en = some (c, vs) ∧ countQ c = vs.length := by
  obtain ⟨cmp, fld, terms⟩ := r
  simp only at hf
  cases cmp with
  | cmpEquality =>
      have h1 : terms.length = 1 := by simpa [constructorBuilt] using hb
      obtain ⟨t, rfl⟩ := List.length_eq_one.mp h1
      by_cases hc : isClusteringKeyField fld keys && en
      · refine ⟨goToLower fld ++ " = ?", [.val (ClusteringFieldOrSentinel t)],
          by simp [generateRelationCQL, hc], ?_⟩
        rw [countQ_append, hf]
        exact (by decide : 0 + countQ " = ?" = 1)
      · refine ⟨goToLower fld ++ " = ?", [.val t],
          by simp [generateRelationCQL, hc], ?_⟩
        rw [countQ_append, hf]
        exact (by decide : 0 + countQ " = ?" = 1)
  | cmpIn =>
      refine ⟨goToLower fld ++ " IN ?", [.list terms], rfl, ?_⟩
      rw [countQ_append, hf]
      exact (by decide : 0 + countQ " IN ?" = 1)
  | cmpGreaterThan =>
      have h1 : terms.length = 1 := by simpa [constructorBuilt] using hb
      obtain ⟨t, rfl⟩ := List.length_eq_one.mp h1
      refine ⟨goToLower fld ++ " > ?", [.val t], rfl, ?_⟩
      rw [countQ_append, hf]
      exact (by decide : 0 + countQ " > ?" = 1)
  | cmpGreaterThanOrEquals =>
      have h1 : terms.length = 1 := by simpa [constructorBuilt] using hb
      obtain ⟨t, rfl⟩ := List.length_eq_one.mp h1
      refine ⟨goToLower fld ++ " >= ?", [.val t], rfl, ?_⟩
      rw [countQ_append, hf]
      exact (by decide : 0 + countQ " >= ?" = 1)
  | cmpLesserThan =>
      have h1 : terms.length = 1 := by simpa [constructorBuilt] using hb
      obtain ⟨t, rfl⟩ := List.length_eq_one.mp h1
      refine ⟨goToLower fld ++ " < ?", [.val t], rfl, ?_⟩
      rw [countQ_append, hf]
      exact (by decide : 0 + countQ " < ?" = 1)
  | cmpLesserThanOrEquals =>
      have h1 : terms.length = 1 := by simpa [constructorBuilt] using hb
      obtain ⟨t, rfl⟩ := List.length_eq_one.mp h1
      refine ⟨goToLower fld ++ " <= ?", [.val t], rfl, ?_⟩
      rw [countQ_append, hf]
      exact (by decide : 0 + countQ " <= ?" = 1)
  | cmpTupleEquality => simp [constructorBuilt] at hb
  | cmpTupleGreaterThan => simp [constructorBuilt] at hb
  | cmpTupleGreaterThanOrEquals => simp [constructorBuilt] at hb
  | cmpTupleLesserThan => simp [constructorBuilt] at hb
  | cmpTupleLesserThanOrEquals => simp [constructorBuilt] at hb

theorem whereParts_count (keys : Keys) (en : Bool) :
    ∀ (rs : List Relation),
    (∀ r ∈ rs, constructorBuilt r = true ∧ countQ (goToLower r.field) = 0) →
    ∃ cs vs, generateWhereParts rs keys en = some (cs, vs) ∧
      (cs.map countQ).sum = vs.length := by
  intro rs
  induction rs with
  | nil => exact fun _ => ⟨[], [], rfl, rfl⟩
  | cons r rest ih =>
      intro h
      obtain ⟨hb, hf⟩ := h r (List.mem_cons_self r rest)
      obtain ⟨c, bv, hr, hc⟩ := relationCQL_count r keys en hb hf
      obtain ⟨cs, vs, hrest, hsum⟩ := ih (fun x hx => h x (List.mem_cons_of_mem r hx))
      refine ⟨c :: cs, bv ++ vs, ?_, ?_⟩
      · simp [generateWhereParts, hr, hrest]
      · simp [List.map_cons, List.sum_cons, hc, hsum, List.length_append]

theorem whereCQL_count (keys : Keys) (en : Bool) (rs : List Relation)
    (h : ∀ r ∈ rs, constructorBuilt r = true ∧ countQ (goToLower r.field) = 0) :
    ∃ wc wv, generateWhereCQL rs keys en = some (wc, wv) ∧ countQ wc = wv.length := by
  obtain ⟨cs, vs, hp, hsum⟩ := whereParts_count keys en rs h
  refine ⟨goJoin " AND " cs, vs, ?_, ?_⟩
  · simp [generateWhereCQL, hp]
  · rw [countQ_goJoin " AND " (by decide), hsum]

/-- C4: for every select statement whose relations come from the public
constructors and whose identifiers (keyspace, table, selected fields,
order-by columns, lowercased relation fields) contain no literal `?`
character, the rendered CQL contains exactly as many `?` placeholders as
there are bind values. -/
theorem c4_placeholder_balance (s : SelectStatement)
    (hrels : ∀ r ∈ s.whereRels, constructorBuilt r = true ∧ countQ (goToLower r.field) = 0)
    (hks : countQ s.keyspace = 0) (htbl : countQ s.table = 0)
    (hfields : ∀ f ∈ s.fields, countQ f = 0)
    (horder : ∀ oc ∈ s.order, countQ oc.column = 0) :
    ∃ q vs, s.QueryAndValues = some (q, vs) ∧ countQ q = vs.length := by
  obtain ⟨wc, wv, hw, hcw⟩ :=
    whereCQL_count s.keys s.clusteringSentinelsEnabled s.whereRels hrels
  have hfieldsJoin : countQ (goJoin ", " s.fields) = 0 := by
    rw [countQ_goJoin ", " (by decide)]
    exact List.sum_eq_zero (by
      intro x hx
      obtain ⟨f, hf, rfl⟩ := List.mem_map.mp hx
      exact hfields f hf)
  have hfrom : countQ ("FROM " ++ s.keyspace ++ "." ++ s.table) = 0 := by
    rw [countQ_append, countQ_append, countQ_append, hks, htbl]
    decide
  have horderJoin : countQ (generateOrderByCQL s.order) = 0 := by
    rw [generateOrderByCQL, countQ_goJoin ", " (by decide)]
    refine List.sum_eq_zero ?_
    intro x hx
    obtain ⟨y, hy, rfl⟩ := List.mem_map.mp hx
    obtain ⟨oc, hoc, rfl⟩ := List.mem_map.mp hy
    rw [countQ_append, countQ_append, horder oc hoc]
    cases hD : oc.direction <;> decide
  have e1 : countQ "SELECT" = 0 := by decide
  have e2 : countQ "WHERE" = 0 := by decide
  have e3 : countQ "ORDER BY" = 0 := by decide
  have e4 : countQ "LIMIT ?" = 1 := by decide
  have e5 : countQ "ALLOW FILTERING" = 0 := by decide
  refine ⟨_, _, by rw [SelectStatement.QueryAndValues, hw]; rfl, ?_⟩
  rw [countQ_goJoin " " (by decide)]
  split_ifs with h1 h2 h3 h4 <;>
    simp [List.map_append, List.map_cons, List.sum_append, List.sum_cons,
      hfieldsJoin, hfrom, horderJoin, e1, e2, e3, e4, e5, hcw, List.length_append]

/-- C4 witness: the placeholder balance at a concrete select statement
with relations, order, limit and filtering. -/
theorem c4_placeholder_balance_witness :
    ∃ q vs, (SelectStatement.QueryAndValues
      ⟨"ks1", "tbl1", ["a", "b"],
        [Rel.Eq "foo" (.str "bar"), Rel.In "baz" [.str "x"]],
        [⟨"a", .asc⟩], 10, true, ⟨["a"], []⟩, false⟩) = some (q, vs) ∧
      countQ q = vs.length :=
  c4_placeholder_balance
    ⟨"ks1", "tbl1", ["a", "b"],
      [Rel.Eq "foo" (.str "bar"), Rel.In "baz" [.str "x"]],
      [⟨"a", .asc⟩], 10, true, ⟨["a"], []⟩, false⟩
    (by decide) (by decide) (by decide) (by decide) (by decide)
